import Mathlib

/-
Shallow embedding of the identity-matching and clustering engine of the
friendly-face-finder-cam repository.

Numeric conventions of the embedding:
* Face-descriptor entries (IEEE doubles in the source) are modelled as
  exact rationals.
* The value computed by `calculateFaceDistance` is either `Infinity`
  (incomparable descriptors) or `Math.sqrt s` for a sum of squares `s`.
  It is represented symbolically by the type `Dist`: `Dist.sqrtOf s`
  stands for the real number `Real.sqrt s`, `Dist.infinity` for `+∞`.
  Since `Real.sqrt` is strictly monotone on the nonnegative sums that
  actually occur, every comparison the source performs on distances
  (`<` against another distance or against a positive constant
  threshold) is mirrored faithfully and decidably by `Dist.lt` and
  `Dist.ltConst`; the bridge lemmas `Dist.ltConst_sqrt` and
  `Dist.lt_sqrt_iff` relate the symbolic comparisons to `Real.sqrt`.
* `Date.now()` timestamps are modelled as naturals.  JavaScript's
  `now - t < w` on a possibly-later `t` (negative difference) and the
  truncated natural subtraction agree on every comparison the code
  makes, because the windows are positive.
* Database and `Map` state is passed explicitly; the outcome of each
  external persistence call is a parameter of the embedded function.
-/

namespace FaceRec

/-- A face embedding: a fixed-length ordered sequence of numbers
(`Float32Array` in the source, exact rationals here). -/
abbrev Descriptor := List ℚ

/-- The result value of `calculateFaceDistance`: `Infinity`, or the
square root of a sum of squared differences, kept symbolically as the
radicand. -/
inductive Dist where
  | infinity : Dist
  | sqrtOf : ℚ → Dist
deriving DecidableEq, Repr

namespace Dist

/-- Strict comparison of two distance values, as the source's `<` on
floats: `sqrt a < sqrt b ↔ a < b` for the nonnegative radicands that
occur, anything `< Infinity` except `Infinity` itself. -/
def lt : Dist → Dist → Bool
  | infinity, _ => false
  | sqrtOf _, infinity => true
  | sqrtOf a, sqrtOf b => decide (a < b)

/-- Comparison of a distance value against a constant threshold `c > 0`:
`sqrt a < c ↔ a < c ^ 2`, and `Infinity < c` is false. -/
def ltConst : Dist → ℚ → Bool
  | infinity, _ => false
  | sqrtOf a, c => decide (a < c ^ 2)

/-- Order-reflecting interpretation of `Dist` into `WithTop ℚ` (the
radicand, with `Infinity ↦ ⊤`), used for order reasoning. -/
def toW : Dist → WithTop ℚ
  | infinity => ⊤
  | sqrtOf a => (a : WithTop ℚ)

theorem lt_iff_toW (a b : Dist) : a.lt b = true ↔ a.toW < b.toW := by
  cases a <;> cases b <;>
    simp [lt, toW, WithTop.coe_lt_top, WithTop.coe_lt_coe]

theorem lt_eq_false_iff (a b : Dist) : a.lt b = false ↔ b.toW ≤ a.toW := by
  rw [← not_lt, ← lt_iff_toW]
  cases h : a.lt b <;> simp [h]

theorem ltConst_iff_toW (a : Dist) (c : ℚ) :
    a.ltConst c = true ↔ a.toW < ((c ^ 2 : ℚ) : WithTop ℚ) := by
  cases a with
  | infinity => simp [ltConst, toW]
  | sqrtOf q =>
    simp only [ltConst, toW, decide_eq_true_eq]
    exact WithTop.coe_lt_coe.symm

theorem ltConst_eq_false_iff (a : Dist) (c : ℚ) :
    a.ltConst c = false ↔ ((c ^ 2 : ℚ) : WithTop ℚ) ≤ a.toW := by
  rw [← not_lt, ← ltConst_iff_toW]
  cases h : a.ltConst c <;> simp [h]

theorem toW_eq_top_iff (a : Dist) : a.toW = ⊤ ↔ a = infinity := by
  cases a <;> simp [toW]

theorem toW_lt_top_iff (a : Dist) : a.toW < ⊤ ↔ a ≠ infinity := by
  rw [WithTop.lt_top_iff_ne_top, not_iff_not, toW_eq_top_iff]

/-- Bridge to the real value the symbolic comparison stands for: for a
nonnegative radicand and a positive threshold, `ltConst` decides
exactly `Real.sqrt q < c`. -/
theorem ltConst_sqrt (q c : ℚ) (hc : 0 < c) :
    (sqrtOf q).ltConst c = true ↔ Real.sqrt (q : ℝ) < (c : ℝ) := by
  rw [Real.sqrt_lt' (by exact_mod_cast hc)]
  simp only [ltConst, decide_eq_true_eq]
  constructor
  · intro h
    have : ((q : ℝ)) < ((c ^ 2 : ℚ) : ℝ) := by exact_mod_cast h
    simpa [Rat.cast_pow] using this
  · intro h
    have : ((q : ℝ)) < ((c : ℝ)) ^ 2 := h
    exact_mod_cast this

/-- Bridge for comparisons between two distance values with nonnegative
radicands. -/
theorem lt_sqrt_iff (a b : ℚ) (ha : 0 ≤ a) :
    (sqrtOf a).lt (sqrtOf b) = true ↔ Real.sqrt (a : ℝ) < Real.sqrt (b : ℝ) := by
  rw [Real.sqrt_lt_sqrt_iff (by exact_mod_cast ha)]
  simp only [lt, decide_eq_true_eq]
  exact ⟨fun h => by exact_mod_cast h, fun h => by exact_mod_cast h⟩

end Dist

/-- Sum of squared component differences, the accumulator `sum` of both
`calculateFaceDistance` implementations
(`sum += diff * diff` over the common index range). -/
def sumSqDiff (d1 d2 : Descriptor) : ℚ :=
  (List.zipWith (fun a b => (a - b) * (a - b)) d1 d2).sum

theorem sumSqDiff_cons (a b : ℚ) (as bs : Descriptor) :
    sumSqDiff (a :: as) (b :: bs) = (a - b) * (a - b) + sumSqDiff as bs := by
  simp [sumSqDiff, List.zipWith_cons_cons]

theorem sumSqDiff_nonneg (d1 d2 : Descriptor) : 0 ≤ sumSqDiff d1 d2 := by
  induction d1 generalizing d2 with
  | nil => cases d2 <;> simp [sumSqDiff]
  | cons a as ih =>
    cases d2 with
    | nil => simp [sumSqDiff]
    | cons b bs =>
      have h1 : 0 ≤ (a - b) * (a - b) := mul_self_nonneg _
      have h2 := ih bs
      rw [sumSqDiff_cons]
      linarith

theorem sumSqDiff_eq_zero_iff (d1 d2 : Descriptor) (h : d1.length = d2.length) :
    sumSqDiff d1 d2 = 0 ↔ d1 = d2 := by
  induction d1 generalizing d2 with
  | nil =>
    cases d2 with
    | nil => simp [sumSqDiff]
    | cons b bs => simp at h
  | cons a as ih =>
    cases d2 with
    | nil => simp at h
    | cons b bs =>
      have hlen : as.length = bs.length := by simpa using h
      have h1 : 0 ≤ (a - b) * (a - b) := mul_self_nonneg _
      have h2 := sumSqDiff_nonneg as bs
      rw [sumSqDiff_cons]
      constructor
      · intro hz
        have hhead : (a - b) * (a - b) = 0 := by linarith
        have htail : sumSqDiff as bs = 0 := by linarith
        have hab : a = b := sub_eq_zero.mp (mul_self_eq_zero.mp hhead)
        have htl : as = bs := (ih bs hlen).mp htail
        rw [hab, htl]
      · intro he
        injection he with hab htl
        subst hab
        subst htl
        have htail : sumSqDiff as as = 0 := (ih as rfl).mpr rfl
        rw [htail]
        ring

/-- The `DetectedFace` record of `src/src/services/FaceDetectionService.ts`.
Optional fields are `Option`s; `similarity` (the source stores
`1 - bestMatch.distance`) is kept as the distance it is derived from,
which determines the stored value uniquely. -/
structure DetectedFace where
  id : String
  timestamp : ℕ := 0
  descriptor : Option Descriptor := none
  image : Option String := none
  name : Option String := none
  notes : Option String := none
  notifyOnRecognition : Option Bool := none
  age : Option ℚ := none
  gender : Option String := none
  isRecognized : Bool := false
  matchedFaceId : Option String := none
  similarity : Option Dist := none
deriving DecidableEq, Repr

/-- An association map `face id → timestamp`, modelling the JavaScript
`Map<string, number>` cooldown maps (only `get` / `set` / delete-while-
iterating are used by the source, so a key-unique association list is
an exact model). -/
abbrev CooldownMap := List (String × ℕ)

/-- Model of `Map.get`. -/
def mapGet (m : CooldownMap) (k : String) : Option ℕ :=
  (m.find? (fun p => decide (p.1 = k))).map (fun p => p.2)

/-- Model of `Map.set` (replaces any existing entry for the key). -/
def mapSet (m : CooldownMap) (k : String) (v : ℕ) : CooldownMap :=
  (k, v) :: m.filter (fun p => decide (p.1 ≠ k))

namespace FaceDetectionService

/-- Face recognition threshold of `FaceDetectionService`
(`RECOGNITION_THRESHOLD = 0.5`, line 26). -/
def RECOGNITION_THRESHOLD : ℚ := 1 / 2

/-- How long a recognized face is remembered, ms
(`RECOGNITION_MEMORY = 10000`, line 30). -/
def RECOGNITION_MEMORY : ℕ := 10000

/-- Embeds `FaceDetectionService.calculateFaceDistance` (lines 319-331):
`Infinity` on a missing descriptor or a length mismatch, otherwise the
square root of the sum of squared component differences. -/
def calculateFaceDistance : Option Descriptor → Option Descriptor → Dist
  | none, _ => .infinity
  | some _, none => .infinity
  | some d1, some d2 =>
    if d1.length = d2.length then .sqrtOf (sumSqDiff d1 d2) else .infinity

/-- Embeds `cleanupRecentlyRecognizedFaces` (lines 310-317): delete the
entries with `now - timestamp > RECOGNITION_MEMORY`. -/
def cleanupRecentlyRecognizedFaces (m : CooldownMap) (now : ℕ) : CooldownMap :=
  m.filter (fun p => !(decide (now - p.2 > RECOGNITION_MEMORY)))

/-- Embeds `wasRecentlyRecognized` (lines 290-298): read the entry,
opportunistically prune, and decide from the value read before the
prune.  Returns the decision together with the updated map. -/
def wasRecentlyRecognized (m : CooldownMap) (faceId : String) (now : ℕ) :
    Bool × CooldownMap :=
  let lastRecognized := mapGet m faceId
  let m' := cleanupRecentlyRecognizedFaces m now
  (match lastRecognized with
   | none => false
   | some last => decide (now - last < RECOGNITION_MEMORY), m')

/-- Embeds `markFaceAsRecognized` (lines 303-305). -/
def markFaceAsRecognized (m : CooldownMap) (faceId : String) (now : ℕ) :
    CooldownMap :=
  mapSet m faceId now

/-- The mutable static state `compareFaces` touches: the
recently-recognized map, plus the trace of recognition notifications it
has dispatched (the `sendRecognitionNotification` fire-and-forget call,
recorded by matched face id). -/
structure DetState where
  recentlyRecognizedFaces : CooldownMap := []
  emitted : List String := []
deriving DecidableEq, Repr

/-- The acceptance test of the `compareFaces` scan (line 241):
`distance < RECOGNITION_THRESHOLD && (!bestMatch || distance < bestMatch.distance)`. -/
def acceptCheck (distance : Dist) (best : Option (DetectedFace × Dist)) : Bool :=
  distance.ltConst RECOGNITION_THRESHOLD &&
    (match best with
     | none => true
     | some b => distance.lt b.2)

/-- The candidate scan of `compareFaces` (lines 228-247): skip stored
faces without a descriptor, and keep the stored face whenever the
acceptance test passes. -/
def bestMatchLoop (d : Descriptor) :
    List DetectedFace → Option (DetectedFace × Dist) → Option (DetectedFace × Dist)
  | [], best => best
  | storedFace :: rest, best =>
    match storedFace.descriptor with
    | none => bestMatchLoop d rest best
    | some sd =>
      let distance := calculateFaceDistance (some d) (some sd)
      bestMatchLoop d rest
        (if acceptCheck distance best then some (storedFace, distance) else best)

/-- Embeds `compareFaces` (lines 218-285).  The static mutable state is
passed in and returned; `now` is the `Date.now()` reading of the call.
On a best match it builds the recognized face and, when
`notifyOnRecognition !== false`, the id is truthy and the face was not
recently recognized, marks the face recognized and dispatches a
notification. -/
def compareFaces (detectedFace : DetectedFace) (storedFaces : List DetectedFace)
    (st : DetState) (now : ℕ) : Option DetectedFace × DetState :=
  match detectedFace.descriptor with
  | none => (none, st)
  | some d =>
    if storedFaces.isEmpty then (none, st)
    else
      match bestMatchLoop d storedFaces none with
      | none => (none, st)
      | some (bf, bd) =>
        let recognizedFace : DetectedFace :=
          { detectedFace with
            isRecognized := true
            matchedFaceId := some bf.id
            name := bf.name
            notes := bf.notes
            notifyOnRecognition := bf.notifyOnRecognition
            similarity := some bd }
        if bf.notifyOnRecognition ≠ some false ∧ bf.id ≠ "" then
          match wasRecentlyRecognized st.recentlyRecognizedFaces bf.id now with
          | (true, m') =>
            (some recognizedFace, { st with recentlyRecognizedFaces := m' })
          | (false, m') =>
            (some recognizedFace,
             { recentlyRecognizedFaces := markFaceAsRecognized m' bf.id now
               emitted := st.emitted ++ [bf.id] })
        else (some recognizedFace, st)

end FaceDetectionService

namespace PersonService

/-- The `Person` record of `src/src/services/PersonService.ts`, with its
faces attached as `getPersonWithFaces` returns them. -/
structure Person where
  id : String
  name : String := ""
  notes : Option String := none
  notifyOnRecognition : Option Bool := none
  faces : List DetectedFace := []
deriving DecidableEq, Repr

/-- Threshold for face matching of `PersonService`
(`RECOGNITION_THRESHOLD = 0.55`, line 17). -/
def RECOGNITION_THRESHOLD : ℚ := 11 / 20

/-- Embeds `PersonService.calculateFaceDistance` (lines 259-271), the
same computation as the detection-service copy. -/
def calculateFaceDistance : Option Descriptor → Option Descriptor → Dist
  | none, _ => .infinity
  | some _, none => .infinity
  | some d1, some d2 =>
    if d1.length = d2.length then .sqrtOf (sumSqDiff d1 d2) else .infinity

/-- Embeds `shouldClusterWithPerson` (lines 274-276):
`distance < RECOGNITION_THRESHOLD`. -/
def shouldClusterWithPerson (distance : Dist) : Bool :=
  distance.ltConst RECOGNITION_THRESHOLD

/-- The inner loop of `findBestMatchingPerson` (lines 237-246) over one
person's faces: skip faces without a descriptor, take the person
whenever `distance < minDistance`. -/
def faceLoop (descriptor : Descriptor) (p : Person) :
    List DetectedFace → Option Person × Dist → Option Person × Dist
  | [], acc => acc
  | face :: rest, acc =>
    match face.descriptor with
    | none => faceLoop descriptor p rest acc
    | some fd =>
      let distance := calculateFaceDistance (some descriptor) (some fd)
      if distance.lt acc.2 then faceLoop descriptor p rest (some p, distance)
      else faceLoop descriptor p rest acc

/-- The outer loop of `findBestMatchingPerson` (lines 230-247) over all
persons (a person without faces contributes nothing). -/
def personLoop (descriptor : Descriptor) :
    List Person → Option Person × Dist → Option Person × Dist
  | [], acc => acc
  | p :: rest, acc => personLoop descriptor rest (faceLoop descriptor p p.faces acc)

/-- Embeds `findBestMatchingPerson` (lines 218-257): global minimum over
every stored face of every person, starting from
`(null, Infinity)`; no threshold is applied here. -/
def findBestMatchingPerson (descriptor : Descriptor) (persons : List Person) :
    Option Person × Dist :=
  personLoop descriptor persons (none, .infinity)

/-- Database rows relevant to person/face creation: the set of person
ids and the `(face id, person id)` links of `stored_faces`. -/
structure DB where
  persons : List String := []
  faces : List (String × String) := []
deriving DecidableEq, Repr

/-- Outcomes of the external persistence calls a single
`createPersonWithFace` run can make: the id generated by the `persons`
insert (`none` = error), the id generated by the `stored_faces` insert
(`none` = error), and whether the `persons` delete succeeds. -/
structure DBEnv where
  personInsert : Option String := none
  faceInsert : Option String := none
  deleteOk : Bool := true
deriving DecidableEq, Repr

/-- Embeds `addFaceToPerson` (lines 145-181): reject a face without
descriptor or image, otherwise insert the `stored_faces` row and return
the generated id (or `undefined` on a persistence error). -/
def addFaceToPerson (env : DBEnv) (db : DB) (personId : String)
    (face : DetectedFace) : Option String × DB :=
  if face.descriptor = none ∨ face.image = none then (none, db)
  else
    match env.faceInsert with
    | none => (none, db)
    | some faceId =>
      (some faceId, { db with faces := db.faces ++ [(faceId, personId)] })

/-- Embeds `deletePerson` (lines 130-143): delete the row (faces cascade
via the foreign-key constraint) and return whether it succeeded. -/
def deletePerson (env : DBEnv) (db : DB) (personId : String) : Bool × DB :=
  if env.deleteOk then
    (true,
     { persons := db.persons.filter (fun p => decide (p ≠ personId))
       faces := db.faces.filter (fun f => decide (f.2 ≠ personId)) })
  else (false, db)

/-- Embeds `createPersonWithFace` (lines 183-216): insert the person,
then add the face; if the face step fails, delete the just-created
person and return `undefined`. -/
def createPersonWithFace (env : DBEnv) (db : DB) (face : DetectedFace) :
    Option String × DB :=
  match env.personInsert with
  | none => (none, db)
  | some personId =>
    let db1 : DB := { db with persons := db.persons ++ [personId] }
    let r := addFaceToPerson env db1 personId face
    match r.1 with
    | none => (none, (deletePerson env r.2 personId).2)
    | some _ => (some personId, r.2)

end PersonService

namespace NotificationsService

/-- User-configurable notification settings
(`NotificationSettings`, part_000 lines 312-315). -/
structure NotificationSettings where
  enabled : Bool
  cooldownPeriod : ℕ
deriving DecidableEq, Repr

/-- Default cooldown between notifications for the same face, ms
(`NOTIFICATION_COOLDOWN = 60000`, part_000 line 322). -/
def NOTIFICATION_COOLDOWN : ℕ := 60000

/-- The default settings object (part_000 lines 325-328). -/
def defaultSettings : NotificationSettings :=
  { enabled := true, cooldownPeriod := 60000 }

/-- Embeds `cleanupRecentlyNotifiedFaces` (part_000 lines 422-429). -/
def cleanupRecentlyNotifiedFaces (m : CooldownMap) (now cooldown : ℕ) :
    CooldownMap :=
  m.filter (fun p => !(decide (now - p.2 > cooldown)))

/-- Embeds `sendRecognitionNotification` (part_000 lines 363-417).
`settings` is the state `getSettings()` loads (its `cooldownPeriod` is
what `NOTIFICATION_COOLDOWN` holds after loading); `insertOk` is the
outcome of the `recognition_notifications` insert; the cooldown map is
passed and returned explicitly. -/
def sendRecognitionNotification (settings : NotificationSettings)
    (m : CooldownMap) (faceId : Option String) (now : ℕ) (insertOk : Bool) :
    Bool × CooldownMap :=
  if !settings.enabled then (false, m)
  else
    match faceId with
    | none => (insertOk, m)
    | some fid =>
      match mapGet m fid with
      | some last =>
        if now - last < settings.cooldownPeriod then (false, m)
        else
          (insertOk,
           cleanupRecentlyNotifiedFaces (mapSet m fid now) now
             settings.cooldownPeriod)
      | none =>
        (insertOk,
         cleanupRecentlyNotifiedFaces (mapSet m fid now) now
           settings.cooldownPeriod)

/-- Modelled from the spec (§4.5 "prune after deciding"): the decision
of `sendRecognitionNotification` with the opportunistic prune removed,
for comparison with the source function. -/
def sendRecognitionNotificationNoPrune (settings : NotificationSettings)
    (m : CooldownMap) (faceId : Option String) (now : ℕ) (insertOk : Bool) :
    Bool × CooldownMap :=
  if !settings.enabled then (false, m)
  else
    match faceId with
    | none => (insertOk, m)
    | some fid =>
      match mapGet m fid with
      | some last =>
        if now - last < settings.cooldownPeriod then (false, m)
        else (insertOk, mapSet m fid now)
      | none => (insertOk, mapSet m fid now)

end NotificationsService

namespace FaceDetectionService

/-- Modelled from the spec (§4.5 "prune after deciding"): the
recently-recognized check without the opportunistic prune, for
comparison with the source function. -/
def wasRecentlyRecognizedNoPrune (m : CooldownMap) (faceId : String)
    (now : ℕ) : Bool :=
  match mapGet m faceId with
  | none => false
  | some last => decide (now - last < RECOGNITION_MEMORY)

end FaceDetectionService

namespace PersonService

/-- Outcome of storing one captured face against the current gallery. -/
inductive ClusterDecision where
  | merged : String → ClusterDecision
  | createdNew : ClusterDecision
deriving DecidableEq, Repr

/-- Modelled from the spec: the storage-time clustering pipeline of
§4.4 (its caller is not among the repository sources; only the decision
functions are).  Run the matcher over the whole gallery, merge into the
best person when `shouldClusterWithPerson` accepts the distance,
otherwise create a new identity. -/
def storageClusterDecision (persons : List Person) (descriptor : Descriptor) :
    ClusterDecision :=
  let r := findBestMatchingPerson descriptor persons
  match r.1 with
  | some p => if shouldClusterWithPerson r.2 then .merged p.id else .createdNew
  | none => .createdNew

end PersonService

/-- A probe face with a one-dimensional zero embedding. -/
def probeFace : DetectedFace := { id := "probe", descriptor := some [0] }

/-- A stored face bit-identical to the probe's embedding. -/
def storedZero : DetectedFace :=
  { id := "f1", descriptor := some [0], name := some "Ann", image := some "img" }

/-- A stored face at Euclidean distance 0.9 from the zero embedding. -/
def storedFar : DetectedFace :=
  { id := "f2", descriptor := some [(9 : ℚ) / 10], name := some "Bob" }

/-- A stored face whose notify-flag is explicitly `false`. -/
def storedQuiet : DetectedFace :=
  { id := "f4", descriptor := some [0], name := some "Carl",
    notifyOnRecognition := some false }

/-- A person whose single face is at distance 0.9 from the zero embedding. -/
def personFar : PersonService.Person :=
  { id := "p1", name := "Bob", faces := [storedFar] }

/-- A person whose single face has the all-zero embedding `[0]`. -/
def personZero : PersonService.Person :=
  { id := "p2", name := "Ann", faces := [{ id := "f1", descriptor := some [0] }] }

namespace FaceDetectionService

theorem bestMatchLoop_spec (d : Descriptor) (l : List DetectedFace)
    (best : Option (DetectedFace × Dist))
    (hbest : ∀ f₀ d₀, best = some (f₀, d₀) →
      d₀.ltConst RECOGNITION_THRESHOLD = true) :
    (∀ f dd, bestMatchLoop d l best = some (f, dd) →
       dd.ltConst RECOGNITION_THRESHOLD = true) ∧
    (bestMatchLoop d l best = best ∨
       ∃ sf ∈ l, ∃ sd, sf.descriptor = some sd ∧
         bestMatchLoop d l best =
           some (sf, calculateFaceDistance (some d) (some sd)) ∧
         (calculateFaceDistance (some d) (some sd)).ltConst
           RECOGNITION_THRESHOLD = true) ∧
    (∀ f dd, bestMatchLoop d l best = some (f, dd) →
       (∀ f₀ d₀, best = some (f₀, d₀) → ¬ d₀.toW < dd.toW) ∧
       (∀ sf ∈ l, ∀ sd, sf.descriptor = some sd →
          ¬ (calculateFaceDistance (some d) (some sd)).toW < dd.toW)) := by
  induction l generalizing best with
  | nil =>
    refine ⟨fun f dd h => hbest f dd h, Or.inl rfl, fun f dd h => ⟨?_, by simp⟩⟩
    intro f₀ d₀ h₀
    rw [show bestMatchLoop d [] best = best from rfl] at h
    rw [h₀] at h
    obtain ⟨rfl, rfl⟩ : f₀ = f ∧ d₀ = dd := by
      injection h with h'
      injection h' with h1 h2
      exact ⟨h1, h2⟩
    exact lt_irrefl _
  | cons sf rest ih =>
    cases hdesc : sf.descriptor with
    | none =>
      have key : bestMatchLoop d (sf :: rest) best = bestMatchLoop d rest best := by
        simp only [bestMatchLoop, hdesc]
      obtain ⟨ihA, ihB, ihD⟩ := ih best hbest
      refine ⟨?_, ?_, ?_⟩
      · intro f dd h; exact ihA f dd (key ▸ h)
      · rw [key]
        rcases ihB with h | ⟨sf', hmem, sd', h1, h2, h3⟩
        · exact Or.inl h
        · exact Or.inr ⟨sf', List.mem_cons_of_mem _ hmem, sd', h1, h2, h3⟩
      · intro f dd h
        obtain ⟨hb, hmin⟩ := ihD f dd (key ▸ h)
        refine ⟨hb, ?_⟩
        intro sf' hmem sd' hd'
        rcases List.mem_cons.mp hmem with rfl | hmem'
        · rw [hdesc] at hd'; cases hd'
        · exact hmin sf' hmem' sd' hd'
    | some sd =>
      set dist := calculateFaceDistance (some d) (some sd) with hdist
      have key : bestMatchLoop d (sf :: rest) best =
          bestMatchLoop d rest
            (if acceptCheck dist best then some (sf, dist) else best) := by
        simp only [bestMatchLoop, hdesc, ← hdist]
      cases htake : acceptCheck dist best with
      | true =>
        -- the head face becomes the running best
        have hθ : dist.ltConst RECOGNITION_THRESHOLD = true := by
          have h := htake
          unfold acceptCheck at h
          exact (Bool.and_eq_true _ _ |>.mp h).1
        have hbeat : ∀ f₀ d₀, best = some (f₀, d₀) → dist.lt d₀ = true := by
          intro f₀ d₀ h₀
          have h := htake
          rw [h₀] at h
          unfold acceptCheck at h
          exact (Bool.and_eq_true _ _ |>.mp h).2
        have hkey : bestMatchLoop d (sf :: rest) best =
            bestMatchLoop d rest (some (sf, dist)) := by
          rw [key, if_pos htake]
        have hbest' : ∀ f₀ d₀, (some (sf, dist) : Option (DetectedFace × Dist)) =
            some (f₀, d₀) → d₀.ltConst RECOGNITION_THRESHOLD = true := by
          intro f₀ d₀ h₀
          injection h₀ with h₀'
          injection h₀' with h1 h2
          rw [← h2]; exact hθ
        obtain ⟨ihA, ihB, ihD⟩ := ih (some (sf, dist)) hbest'
        refine ⟨?_, ?_, ?_⟩
        · intro f dd h; exact ihA f dd (hkey ▸ h)
        · rw [hkey]
          rcases ihB with h | ⟨sf', hmem, sd', h1, h2, h3⟩
          · exact Or.inr ⟨sf, List.mem_cons_self _ _, sd, hdesc, h, hθ⟩
          · exact Or.inr ⟨sf', List.mem_cons_of_mem _ hmem, sd', h1, h2, h3⟩
        · intro f dd h
          obtain ⟨hb, hmin⟩ := ihD f dd (hkey ▸ h)
          have hhead : ¬ dist.toW < dd.toW := hb sf dist rfl
          refine ⟨?_, ?_⟩
          · intro f₀ d₀ h₀
            have hlt : dist.lt d₀ = true := hbeat f₀ d₀ h₀
            have h1 : dist.toW < d₀.toW := (Dist.lt_iff_toW _ _).mp hlt
            have h2 : dd.toW ≤ dist.toW := not_lt.mp hhead
            exact lt_asymm (lt_of_le_of_lt h2 h1)
          · intro sf' hmem sd' hd'
            rcases List.mem_cons.mp hmem with rfl | hmem'
            · rw [hdesc] at hd'
              injection hd' with h1
              rw [← h1]
              exact hhead
            · exact hmin sf' hmem' sd' hd'
      | false =>
        -- the head face is not taken
        have hkey : bestMatchLoop d (sf :: rest) best =
            bestMatchLoop d rest best := by
          rw [key, if_neg (by simp [htake])]
        have hsplit : dist.ltConst RECOGNITION_THRESHOLD = false ∨
            ∃ f₀ d₀, best = some (f₀, d₀) ∧ dist.lt d₀ = false := by
          cases hbb : best with
          | none =>
            left
            have h := htake
            rw [hbb] at h
            unfold acceptCheck at h
            simpa using h
          | some bb =>
            obtain ⟨f₀, d₀⟩ := bb
            have h := htake
            rw [hbb] at h
            simp only [acceptCheck] at h
            rcases Bool.and_eq_false_iff.mp h with h1 | h1
            · exact Or.inl h1
            · exact Or.inr ⟨f₀, d₀, rfl, h1⟩
        obtain ⟨ihA, ihB, ihD⟩ := ih best hbest
        refine ⟨?_, ?_, ?_⟩
        · intro f dd h; exact ihA f dd (hkey ▸ h)
        · rw [hkey]
          rcases ihB with h | ⟨sf', hmem, sd', h1, h2, h3⟩
          · exact Or.inl h
          · exact Or.inr ⟨sf', List.mem_cons_of_mem _ hmem, sd', h1, h2, h3⟩
        · intro f dd h
          obtain ⟨hb, hmin⟩ := ihD f dd (hkey ▸ h)
          have hθr : dd.ltConst RECOGNITION_THRESHOLD = true :=
            ihA f dd (hkey ▸ h)
          have hhead : ¬ dist.toW < dd.toW := by
            rcases hsplit with hθf | ⟨f₀, d₀, hbb, hmf⟩
            · have h1 : ((RECOGNITION_THRESHOLD ^ 2 : ℚ) : WithTop ℚ) ≤ dist.toW :=
                (Dist.ltConst_eq_false_iff _ _).mp hθf
              have h2 : dd.toW < ((RECOGNITION_THRESHOLD ^ 2 : ℚ) : WithTop ℚ) :=
                (Dist.ltConst_iff_toW _ _).mp hθr
              exact not_lt.mpr (le_of_lt (lt_of_lt_of_le h2 h1))
            · have h1 : d₀.toW ≤ dist.toW :=
                (Dist.lt_eq_false_iff _ _).mp hmf
              have h2 : ¬ d₀.toW < dd.toW := hb f₀ d₀ hbb
              have h3 : dd.toW ≤ d₀.toW := not_lt.mp h2
              exact not_lt.mpr (le_trans h3 h1)
          refine ⟨hb, ?_⟩
          intro sf' hmem sd' hd'
          rcases List.mem_cons.mp hmem with rfl | hmem'
          · rw [hdesc] at hd'
            injection hd' with h1
            rw [← h1]
            exact hhead
          · exact hmin sf' hmem' sd' hd'

end FaceDetectionService

namespace PersonService

theorem faceLoop_spec (d : Descriptor) (p : Person) (faces : List DetectedFace)
    (acc : Option Person × Dist) :
    (faceLoop d p faces acc = acc ∨
       ∃ f ∈ faces, ∃ fd, f.descriptor = some fd ∧
         faceLoop d p faces acc =
           (some p, calculateFaceDistance (some d) (some fd)) ∧
         (calculateFaceDistance (some d) (some fd)).toW < acc.2.toW) ∧
    ((faceLoop d p faces acc).2.toW ≤ acc.2.toW) ∧
    (∀ f ∈ faces, ∀ fd, f.descriptor = some fd →
       ¬ (calculateFaceDistance (some d) (some fd)).toW <
           (faceLoop d p faces acc).2.toW) := by
  induction faces generalizing acc with
  | nil => exact ⟨Or.inl rfl, le_refl _, by simp⟩
  | cons f rest ih =>
    cases hdesc : f.descriptor with
    | none =>
      have key : faceLoop d p (f :: rest) acc = faceLoop d p rest acc := by
        simp only [faceLoop, hdesc]
      obtain ⟨ihP, ihLe, ihMin⟩ := ih acc
      refine ⟨?_, key ▸ ihLe, ?_⟩
      · rw [key]
        rcases ihP with h | ⟨f', hmem, fd', h1, h2, h3⟩
        · exact Or.inl h
        · exact Or.inr ⟨f', List.mem_cons_of_mem _ hmem, fd', h1, h2, h3⟩
      · intro f' hmem fd' hd'
        rcases List.mem_cons.mp hmem with rfl | hmem'
        · rw [hdesc] at hd'; cases hd'
        · exact key ▸ ihMin f' hmem' fd' hd'
    | some fd =>
      set dist := calculateFaceDistance (some d) (some fd) with hdist
      cases hlt : dist.lt acc.2 with
      | true =>
        have key : faceLoop d p (f :: rest) acc =
            faceLoop d p rest (some p, dist) := by
          simp only [faceLoop, hdesc, ← hdist, hlt, if_true]
        have hlt' : dist.toW < acc.2.toW := (Dist.lt_iff_toW _ _).mp hlt
        obtain ⟨ihP, ihLe, ihMin⟩ := ih (some p, dist)
        have hres : (faceLoop d p (f :: rest) acc).2.toW ≤ dist.toW := by
          rw [key]; exact ihLe
        refine ⟨?_, le_trans hres (le_of_lt hlt'), ?_⟩
        · rw [key]
          rcases ihP with h | ⟨f', hmem, fd', h1, h2, h3⟩
          · exact Or.inr ⟨f, List.mem_cons_self _ _, fd, hdesc, h, hlt'⟩
          · exact Or.inr ⟨f', List.mem_cons_of_mem _ hmem, fd', h1, h2,
              lt_trans h3 hlt'⟩
        · intro f' hmem fd' hd'
          rcases List.mem_cons.mp hmem with rfl | hmem'
          · rw [hdesc] at hd'
            injection hd' with h1
            rw [← h1]
            exact not_lt.mpr hres
          · exact key ▸ ihMin f' hmem' fd' hd'
      | false =>
        have key : faceLoop d p (f :: rest) acc = faceLoop d p rest acc := by
          simp [faceLoop, hdesc, ← hdist, hlt]
        have hge : acc.2.toW ≤ dist.toW := (Dist.lt_eq_false_iff _ _).mp hlt
        obtain ⟨ihP, ihLe, ihMin⟩ := ih acc
        refine ⟨?_, key ▸ ihLe, ?_⟩
        · rw [key]
          rcases ihP with h | ⟨f', hmem, fd', h1, h2, h3⟩
          · exact Or.inl h
          · exact Or.inr ⟨f', List.mem_cons_of_mem _ hmem, fd', h1, h2, h3⟩
        · intro f' hmem fd' hd'
          rcases List.mem_cons.mp hmem with rfl | hmem'
          · rw [hdesc] at hd'
            injection hd' with h1
            rw [← h1]
            exact not_lt.mpr (le_trans (key ▸ ihLe) hge)
          · exact key ▸ ihMin f' hmem' fd' hd'

theorem personLoop_spec (d : Descriptor) (persons : List Person)
    (acc : Option Person × Dist) :
    (personLoop d persons acc = acc ∨
       ∃ p ∈ persons, ∃ f ∈ p.faces, ∃ fd, f.descriptor = some fd ∧
         personLoop d persons acc =
           (some p, calculateFaceDistance (some d) (some fd)) ∧
         (calculateFaceDistance (some d) (some fd)).toW < acc.2.toW) ∧
    ((personLoop d persons acc).2.toW ≤ acc.2.toW) ∧
    (∀ p ∈ persons, ∀ f ∈ p.faces, ∀ fd, f.descriptor = some fd →
       ¬ (calculateFaceDistance (some d) (some fd)).toW <
           (personLoop d persons acc).2.toW) := by
  induction persons generalizing acc with
  | nil => exact ⟨Or.inl rfl, le_refl _, by simp⟩
  | cons p rest ih =>
    have key : personLoop d (p :: rest) acc =
        personLoop d rest (faceLoop d p p.faces acc) := by
      simp only [personLoop]
    obtain ⟨flP, flLe, flMin⟩ := faceLoop_spec d p p.faces acc
    obtain ⟨ihP, ihLe, ihMin⟩ := ih (faceLoop d p p.faces acc)
    have hle : (personLoop d (p :: rest) acc).2.toW ≤ acc.2.toW := by
      rw [key]; exact le_trans ihLe flLe
    refine ⟨?_, hle, ?_⟩
    · rw [key]
      rcases ihP with h | ⟨p', hmem, f', hfmem, fd', h1, h2, h3⟩
      · rw [h]
        rcases flP with h' | ⟨f', hfmem, fd', h1, h2, h3⟩
        · exact Or.inl h'
        · exact Or.inr ⟨p, List.mem_cons_self _ _, f', hfmem, fd', h1, h2, h3⟩
      · exact Or.inr ⟨p', List.mem_cons_of_mem _ hmem, f', hfmem, fd', h1, h2,
          lt_of_lt_of_le h3 flLe⟩
    · intro p' hmem f' hfmem fd' hd'
      rcases List.mem_cons.mp hmem with rfl | hmem'
      · refine fun hc => flMin f' hfmem fd' hd' (lt_of_lt_of_le hc ?_)
        rw [key]
        exact ihLe
      · exact fun hc => ihMin p' hmem' f' hfmem fd' hd' (key ▸ hc)

end PersonService

theorem mapGet_cleanupNotified_mapSet_self (m : CooldownMap) (k : String)
    (v now cd : ℕ) (h : ¬ now - v > cd) :
    mapGet (NotificationsService.cleanupRecentlyNotifiedFaces
      (mapSet m k v) now cd) k = some v := by
  unfold NotificationsService.cleanupRecentlyNotifiedFaces mapSet mapGet
  rw [List.filter_cons_of_pos (by simp [h])]
  rw [List.find?_cons_of_pos _ (by simp)]
  rfl

/-- C7: on a missing descriptor or a length mismatch, both copies of
`calculateFaceDistance` return `Infinity`; being total Lean functions,
they cannot throw. -/
theorem C7_mismatched_or_missing_infinity :
    (∀ b, FaceDetectionService.calculateFaceDistance none b = .infinity) ∧
    (∀ a, FaceDetectionService.calculateFaceDistance a none = .infinity) ∧
    (∀ x y : Descriptor, x.length ≠ y.length →
       FaceDetectionService.calculateFaceDistance (some x) (some y) = .infinity) ∧
    (∀ b, PersonService.calculateFaceDistance none b = .infinity) ∧
    (∀ a, PersonService.calculateFaceDistance a none = .infinity) ∧
    (∀ x y : Descriptor, x.length ≠ y.length →
       PersonService.calculateFaceDistance (some x) (some y) = .infinity) := by
  refine ⟨fun b => rfl, fun a => ?_, fun x y h => ?_,
          fun b => rfl, fun a => ?_, fun x y h => ?_⟩
  · cases a <;> rfl
  · simp [FaceDetectionService.calculateFaceDistance, h]
  · cases a <;> rfl
  · simp [PersonService.calculateFaceDistance, h]

/-- C7 witness: descriptors of lengths 1 and 2 are incomparable. -/
theorem C7_mismatched_or_missing_infinity_witness :
    FaceDetectionService.calculateFaceDistance (some [0]) (some [0, 0]) =
      .infinity ∧
    PersonService.calculateFaceDistance (some [0]) (some [0, 0]) =
      .infinity :=
  ⟨C7_mismatched_or_missing_infinity.2.2.1 [0] [0, 0] (by decide),
   C7_mismatched_or_missing_infinity.2.2.2.2.2 [0] [0, 0] (by decide)⟩

/-- C8: for equal-length descriptors the distance is zero (the value
`sqrt 0`) exactly when the descriptors are identical, for both copies of
`calculateFaceDistance`; the last conjunct states the same for the real
value `Real.sqrt` of the computed radicand. -/
theorem C8_zero_iff_identical : ∀ x y : Descriptor, x.length = y.length →
    (FaceDetectionService.calculateFaceDistance (some x) (some y) =
       .sqrtOf 0 ↔ x = y) ∧
    (PersonService.calculateFaceDistance (some x) (some y) =
       .sqrtOf 0 ↔ x = y) ∧
    (Real.sqrt ((sumSqDiff x y : ℚ) : ℝ) = 0 ↔ x = y) := by
  intro x y h
  have hz := sumSqDiff_eq_zero_iff x y h
  have hFD : FaceDetectionService.calculateFaceDistance (some x) (some y) =
      .sqrtOf (sumSqDiff x y) := by
    simp [FaceDetectionService.calculateFaceDistance, h]
  have hPS : PersonService.calculateFaceDistance (some x) (some y) =
      .sqrtOf (sumSqDiff x y) := by
    simp [PersonService.calculateFaceDistance, h]
  refine ⟨?_, ?_, ?_⟩
  · rw [hFD]
    constructor
    · intro he
      injection he with he'
      exact hz.mp he'
    · intro he
      rw [hz.mpr he]
  · rw [hPS]
    constructor
    · intro he
      injection he with he'
      exact hz.mp he'
    · intro he
      rw [hz.mpr he]
  · rw [Real.sqrt_eq_zero (by exact_mod_cast sumSqDiff_nonneg x y),
      Rat.cast_eq_zero]
    exact hz

/-- C8 witness: each copy of the distance evaluates to zero on the pair
`([0], [0])` of identical descriptors. -/
theorem C8_zero_iff_identical_witness :
    FaceDetectionService.calculateFaceDistance (some [0]) (some [0]) =
      .sqrtOf 0 ∧
    PersonService.calculateFaceDistance (some [0]) (some [0]) = .sqrtOf 0 :=
  ⟨(C8_zero_iff_identical [0] [0] rfl).1.mpr rfl,
   (C8_zero_iff_identical [0] [0] rfl).2.1.mpr rfl⟩

/-- C9: in both throttles, the opportunistic prune of expired entries
never changes the boolean decision of the current call: the source
functions agree with their prune-free counterparts modelled from the
spec, on every state, id, clock reading and insert outcome. -/
theorem C9_prune_preserves_decision :
    (∀ (m : CooldownMap) (fid : String) (now : ℕ),
       (FaceDetectionService.wasRecentlyRecognized m fid now).1 =
       FaceDetectionService.wasRecentlyRecognizedNoPrune m fid now) ∧
    (∀ (s : NotificationsService.NotificationSettings) (m : CooldownMap)
       (fid : Option String) (now : ℕ) (ok : Bool),
       (NotificationsService.sendRecognitionNotification s m fid now ok).1 =
       (NotificationsService.sendRecognitionNotificationNoPrune
          s m fid now ok).1) := by
  constructor
  · intro m fid now
    cases h : mapGet m fid <;>
      simp [FaceDetectionService.wasRecentlyRecognized,
        FaceDetectionService.wasRecentlyRecognizedNoPrune, h]
  · intro s m fid now ok
    cases hs : s.enabled with
    | false =>
      simp [NotificationsService.sendRecognitionNotification,
        NotificationsService.sendRecognitionNotificationNoPrune, hs]
    | true =>
      cases fid with
      | none =>
        simp [NotificationsService.sendRecognitionNotification,
          NotificationsService.sendRecognitionNotificationNoPrune, hs]
      | some f =>
        cases hg : mapGet m f with
        | none =>
          simp [NotificationsService.sendRecognitionNotification,
            NotificationsService.sendRecognitionNotificationNoPrune, hs, hg]
        | some last =>
          by_cases hlt : now - last < s.cooldownPeriod <;>
            simp [NotificationsService.sendRecognitionNotification,
              NotificationsService.sendRecognitionNotificationNoPrune,
              hs, hg, hlt]

/-- C2: `shouldClusterWithPerson` accepts exactly the distances whose
real value is below 0.55 (`Infinity` is never accepted), the threshold
constant is 0.55, and in the storage-time clustering pipeline a new face
at distance 0.3 from the single face `[0]` of an existing identity is
merged into it while a face at distance 0.9 leads to a new identity. -/
theorem C2_storage_threshold_and_clustering :
    (∀ q : ℚ, PersonService.shouldClusterWithPerson (.sqrtOf q) = true ↔
       Real.sqrt (q : ℝ) < 11 / 20) ∧
    PersonService.shouldClusterWithPerson .infinity = false ∧
    PersonService.RECOGNITION_THRESHOLD = 11 / 20 ∧
    PersonService.storageClusterDecision [personZero] [(3 : ℚ) / 10] =
      .merged "p2" ∧
    PersonService.storageClusterDecision [personZero] [(9 : ℚ) / 10] =
      .createdNew := by
  refine ⟨?_, rfl, rfl, ?_, ?_⟩
  · intro q
    have hb := Dist.ltConst_sqrt q PersonService.RECOGNITION_THRESHOLD
      (by norm_num [PersonService.RECOGNITION_THRESHOLD])
    unfold PersonService.shouldClusterWithPerson
    rw [hb]
    norm_num [PersonService.RECOGNITION_THRESHOLD]
  · norm_num [PersonService.storageClusterDecision,
      PersonService.findBestMatchingPerson, PersonService.personLoop,
      PersonService.faceLoop, personZero, PersonService.calculateFaceDistance,
      sumSqDiff, Dist.lt, Dist.ltConst, PersonService.shouldClusterWithPerson,
      PersonService.RECOGNITION_THRESHOLD]
  · norm_num [PersonService.storageClusterDecision,
      PersonService.findBestMatchingPerson, PersonService.personLoop,
      PersonService.faceLoop, personZero, PersonService.calculateFaceDistance,
      sumSqDiff, Dist.lt, Dist.ltConst, PersonService.shouldClusterWithPerson,
      PersonService.RECOGNITION_THRESHOLD]

theorem send_gate_passes (s : NotificationsService.NotificationSettings)
    (m : CooldownMap) (fid : String) (t : ℕ) (ok : Bool)
    (hs : s.enabled = true)
    (hg : ∀ last, mapGet m fid = some last → s.cooldownPeriod ≤ t - last) :
    NotificationsService.sendRecognitionNotification s m (some fid) t ok =
      (ok, NotificationsService.cleanupRecentlyNotifiedFaces
             (mapSet m fid t) t s.cooldownPeriod) := by
  unfold NotificationsService.sendRecognitionNotification
  rw [hs]
  cases hget : mapGet m fid with
  | none => simp [hget]
  | some last =>
    have hle := hg last hget
    simp [hget, Nat.not_lt.mpr hle]

theorem send_gate_rejected (s : NotificationsService.NotificationSettings)
    (m : CooldownMap) (fid : String) (now : ℕ) (ok : Bool) (last : ℕ)
    (hs : s.enabled = true) (hget : mapGet m fid = some last)
    (hin : now - last < s.cooldownPeriod) :
    NotificationsService.sendRecognitionNotification s m (some fid) now ok =
      (false, m) := by
  unfold NotificationsService.sendRecognitionNotification
  rw [hs]
  simp [hget, hin]

/-- C5: once a notification for a face id passes the gate and records
its timestamp, every further attempt strictly inside the cooldown
window is rejected (and leaves the map unchanged), and an attempt at or
after the end of the window passes the gate again; the notification
cooldown defaults to 60000 ms and the live-detection short memory to
10000 ms. -/
theorem C5_throttle_cooldown_window :
    NotificationsService.NOTIFICATION_COOLDOWN = 60000 ∧
    NotificationsService.defaultSettings.cooldownPeriod = 60000 ∧
    FaceDetectionService.RECOGNITION_MEMORY = 10000 ∧
    ∀ (s : NotificationsService.NotificationSettings) (m : CooldownMap)
      (fid : String) (t : ℕ) (ok : Bool),
      s.enabled = true →
      (∀ last, mapGet m fid = some last → s.cooldownPeriod ≤ t - last) →
      (NotificationsService.sendRecognitionNotification s m (some fid) t ok).1
        = ok ∧
      ∀ t' ok',
        (t' - t < s.cooldownPeriod →
          NotificationsService.sendRecognitionNotification s
            (NotificationsService.sendRecognitionNotification
               s m (some fid) t ok).2 (some fid) t' ok' =
          (false,
           (NotificationsService.sendRecognitionNotification
              s m (some fid) t ok).2)) ∧
        (s.cooldownPeriod ≤ t' - t →
          (NotificationsService.sendRecognitionNotification s
            (NotificationsService.sendRecognitionNotification
               s m (some fid) t ok).2 (some fid) t' ok').1 = ok') := by
  refine ⟨rfl, rfl, rfl, ?_⟩
  intro s m fid t ok hs hg
  have hfirst := send_gate_passes s m fid t ok hs hg
  have hget1 : mapGet (NotificationsService.sendRecognitionNotification
      s m (some fid) t ok).2 fid = some t := by
    rw [hfirst]
    exact mapGet_cleanupNotified_mapSet_self m fid t t s.cooldownPeriod
      (by omega)
  refine ⟨by rw [hfirst], ?_⟩
  intro t' ok'
  constructor
  · intro hin
    exact send_gate_rejected s _ fid t' ok' t hs hget1 hin
  · intro hout
    have hg' : ∀ last, mapGet (NotificationsService.sendRecognitionNotification
        s m (some fid) t ok).2 fid = some last → s.cooldownPeriod ≤ t' - last := by
      intro last hlast
      rw [hget1] at hlast
      injection hlast with hlast'
      rw [← hlast']
      exact hout
    rw [send_gate_passes s _ fid t' ok' hs hg']

/-- C5 witness: with the default settings, a first notification at time
0 for face id `f1` on the empty map is permitted, a retry at 59999 ms is
rejected, and a retry at 60000 ms is permitted again. -/
theorem C5_throttle_cooldown_window_witness :
    (NotificationsService.sendRecognitionNotification
       NotificationsService.defaultSettings [] (some "f1") 0 true).1 = true ∧
    (NotificationsService.sendRecognitionNotification
       NotificationsService.defaultSettings
       (NotificationsService.sendRecognitionNotification
          NotificationsService.defaultSettings [] (some "f1") 0 true).2
       (some "f1") 59999 true).1 = false ∧
    (NotificationsService.sendRecognitionNotification
       NotificationsService.defaultSettings
       (NotificationsService.sendRecognitionNotification
          NotificationsService.defaultSettings [] (some "f1") 0 true).2
       (some "f1") 60000 true).1 = true := by
  obtain ⟨-, -, -, h⟩ := C5_throttle_cooldown_window
  obtain ⟨h1, h2⟩ := h NotificationsService.defaultSettings [] "f1" 0 true rfl
    (by intro last hlast; cases hlast)
  refine ⟨h1, ?_, ?_⟩
  · rw [(h2 59999 true).1 (by norm_num [NotificationsService.defaultSettings])]
  · exact (h2 60000 true).2 (by norm_num [NotificationsService.defaultSettings])

/-- C10: `sendRecognitionNotification` records the cooldown timestamp
before attempting the insert, so a call whose insert fails still
returns `false` with the timestamp set, and every retry for the same
face id strictly inside the cooldown window is rejected no matter how
its own insert would fare. -/
theorem C10_failed_insert_consumes_cooldown :
    ∀ (s : NotificationsService.NotificationSettings) (m : CooldownMap)
      (fid : String) (t : ℕ),
      s.enabled = true →
      (∀ last, mapGet m fid = some last → s.cooldownPeriod ≤ t - last) →
      (NotificationsService.sendRecognitionNotification
         s m (some fid) t false).1 = false ∧
      mapGet (NotificationsService.sendRecognitionNotification
         s m (some fid) t false).2 fid = some t ∧
      ∀ t' ok', t' - t < s.cooldownPeriod →
        (NotificationsService.sendRecognitionNotification s
          (NotificationsService.sendRecognitionNotification
             s m (some fid) t false).2 (some fid) t' ok').1 = false := by
  intro s m fid t hs hg
  have hfirst := send_gate_passes s m fid t false hs hg
  have hget1 : mapGet (NotificationsService.sendRecognitionNotification
      s m (some fid) t false).2 fid = some t := by
    rw [hfirst]
    exact mapGet_cleanupNotified_mapSet_self m fid t t s.cooldownPeriod
      (by omega)
  refine ⟨by rw [hfirst], hget1, ?_⟩
  intro t' ok' hin
  rw [send_gate_rejected s _ fid t' ok' t hs hget1 hin]

/-- C10 witness: a failed insert at time 0 returns false yet records the
timestamp, and a retry with a succeeding insert at 30000 ms is still
rejected. -/
theorem C10_failed_insert_consumes_cooldown_witness :
    (NotificationsService.sendRecognitionNotification
       NotificationsService.defaultSettings [] (some "f1") 0 false).1
      = false ∧
    mapGet (NotificationsService.sendRecognitionNotification
       NotificationsService.defaultSettings [] (some "f1") 0 false).2 "f1"
      = some 0 ∧
    (NotificationsService.sendRecognitionNotification
       NotificationsService.defaultSettings
       (NotificationsService.sendRecognitionNotification
          NotificationsService.defaultSettings [] (some "f1") 0 false).2
       (some "f1") 30000 true).1 = false := by
  obtain ⟨h1, h2, h3⟩ := C10_failed_insert_consumes_cooldown
    NotificationsService.defaultSettings [] "f1" 0 rfl
    (by intro last hlast; cases hlast)
  exact ⟨h1, h2,
    h3 30000 true (by norm_num [NotificationsService.defaultSettings])⟩

/-- C6: when the person insert succeeds with a fresh id but the face
step fails (invalid face or failed insert), `createPersonWithFace`
returns `undefined` and rolls the person back, leaving the `persons`
table exactly as it was — no identity with zero faces survives the
operation (assuming the rollback delete itself succeeds). -/
theorem C6_create_person_rollback :
    ∀ (env : PersonService.DBEnv) (db : PersonService.DB)
      (face : DetectedFace) (pid : String),
      env.personInsert = some pid →
      env.deleteOk = true →
      pid ∉ db.persons →
      (face.descriptor = none ∨ face.image = none ∨ env.faceInsert = none) →
      (PersonService.createPersonWithFace env db face).1 = none ∧
      (PersonService.createPersonWithFace env db face).2.persons =
        db.persons := by
  intro env db face pid hpi hdel hfresh hfail
  have haf : ∀ db' : PersonService.DB,
      PersonService.addFaceToPerson env db' pid face = (none, db') := by
    intro db'
    rcases hfail with h | h | h
    · simp [PersonService.addFaceToPerson, h]
    · simp [PersonService.addFaceToPerson, h]
    · by_cases hg : face.descriptor = none ∨ face.image = none
      · simp [PersonService.addFaceToPerson, hg]
      · simp [PersonService.addFaceToPerson, hg, h]
  have hfilter : (db.persons ++ [pid]).filter (fun p => decide (p ≠ pid)) =
      db.persons := by
    rw [List.filter_append]
    have h1 : db.persons.filter (fun p => decide (p ≠ pid)) = db.persons :=
      List.filter_eq_self.mpr (fun a ha => by
        simp only [decide_eq_true_eq]
        intro hc
        exact hfresh (hc ▸ ha))
    have h2 : ([pid] : List String).filter (fun p => decide (p ≠ pid)) = [] := by
      simp
    rw [h1, h2, List.append_nil]
  constructor
  · unfold PersonService.createPersonWithFace
    rw [hpi]
    simp only [haf]
  · unfold PersonService.createPersonWithFace
    rw [hpi]
    simp only [haf]
    unfold PersonService.deletePerson
    rw [hdel]
    simpa using hfilter

/-- C6 witness: with a fresh person id `p9`, a succeeding person insert
and a failing face insert, the operation returns `undefined` and the
`persons` table is unchanged. -/
theorem C6_create_person_rollback_witness :
    (PersonService.createPersonWithFace
       { personInsert := some "p9", faceInsert := none, deleteOk := true }
       { persons := ["p0"], faces := [] } storedZero).1 = none ∧
    (PersonService.createPersonWithFace
       { personInsert := some "p9", faceInsert := none, deleteOk := true }
       { persons := ["p0"], faces := [] } storedZero).2.persons = ["p0"] :=
  C6_create_person_rollback
    { personInsert := some "p9", faceInsert := none, deleteOk := true }
    { persons := ["p0"], faces := [] } storedZero "p9" rfl rfl
    (by decide) (Or.inr (Or.inr rfl))

theorem compareFaces_cases (df : DetectedFace) (sfs : List DetectedFace)
    (st : FaceDetectionService.DetState) (now : ℕ) :
    (df.descriptor = none →
       FaceDetectionService.compareFaces df sfs st now = (none, st)) ∧
    (∀ d, df.descriptor = some d → sfs.isEmpty = true →
       FaceDetectionService.compareFaces df sfs st now = (none, st)) ∧
    (∀ d, df.descriptor = some d → sfs.isEmpty = false →
       FaceDetectionService.bestMatchLoop d sfs none = none →
       FaceDetectionService.compareFaces df sfs st now = (none, st)) ∧
    (∀ d bf bd, df.descriptor = some d → sfs.isEmpty = false →
       FaceDetectionService.bestMatchLoop d sfs none = some (bf, bd) →
       FaceDetectionService.compareFaces df sfs st now =
         (some { df with
                 isRecognized := true
                 matchedFaceId := some bf.id
                 name := bf.name
                 notes := bf.notes
                 notifyOnRecognition := bf.notifyOnRecognition
                 similarity := some bd },
          if bf.notifyOnRecognition ≠ some false ∧ bf.id ≠ "" then
            (match FaceDetectionService.wasRecentlyRecognized
                st.recentlyRecognizedFaces bf.id now with
             | (true, m') => { st with recentlyRecognizedFaces := m' }
             | (false, m') =>
               { recentlyRecognizedFaces :=
                   FaceDetectionService.markFaceAsRecognized m' bf.id now
                 emitted := st.emitted ++ [bf.id] })
          else st)) := by
  refine ⟨?_, ?_, ?_, ?_⟩
  · intro hd
    simp only [FaceDetectionService.compareFaces, hd]
  · intro d hd he
    simp only [FaceDetectionService.compareFaces, hd, he, if_true]
  · intro d hd he hb
    simp only [FaceDetectionService.compareFaces, hd, he, hb,
      Bool.false_eq_true, if_false]
  · intro d bf bd hd he hb
    simp only [FaceDetectionService.compareFaces, hd, he, hb,
      Bool.false_eq_true, if_false]
    rcases hww : FaceDetectionService.wasRecentlyRecognized
      st.recentlyRecognizedFaces bf.id now with ⟨b, m'⟩
    cases b <;> split <;> rfl

/-- C3 counterexample: `compareFaces` is not side-effect-free — matching
the probe face against a bit-identical stored face with an unset
notify-flag mutates the program state (records the face in the
recently-recognized map and dispatches a notification). -/
theorem C3_pure_matcher_counterexample :
    (FaceDetectionService.compareFaces probeFace [storedZero]
       { recentlyRecognizedFaces := [], emitted := [] } 0).2 ≠
      { recentlyRecognizedFaces := [], emitted := [] } := by
  norm_num [FaceDetectionService.compareFaces, FaceDetectionService.bestMatchLoop,
    FaceDetectionService.acceptCheck, probeFace, storedZero,
    FaceDetectionService.calculateFaceDistance, sumSqDiff,
    Dist.lt, Dist.ltConst, FaceDetectionService.RECOGNITION_THRESHOLD,
    FaceDetectionService.wasRecentlyRecognized,
    FaceDetectionService.markFaceAsRecognized,
    FaceDetectionService.cleanupRecentlyRecognizedFaces, mapGet, mapSet,
    FaceDetectionService.RECOGNITION_MEMORY]
  decide

/-- C3 amended: the match result of `compareFaces` is a pure function of
the detected face and the stored list — it does not depend on the
throttle state or the clock, so equal inputs give equal results — but
the call is not side-effect-free: there are inputs on which it mutates
the recently-recognized map and dispatches a notification. -/
theorem C3_match_result_pure :
    (∀ (df : DetectedFace) (sfs : List DetectedFace)
       (st : FaceDetectionService.DetState) (now : ℕ)
       (st' : FaceDetectionService.DetState) (now' : ℕ),
       (FaceDetectionService.compareFaces df sfs st now).1 =
       (FaceDetectionService.compareFaces df sfs st' now').1) ∧
    (∃ (df : DetectedFace) (sfs : List DetectedFace)
       (st : FaceDetectionService.DetState) (now : ℕ),
       (FaceDetectionService.compareFaces df sfs st now).2 ≠ st) := by
  constructor
  · intro df sfs st now st' now'
    have c1 := compareFaces_cases df sfs st now
    have c2 := compareFaces_cases df sfs st' now'
    cases hd : df.descriptor with
    | none => rw [c1.1 hd, c2.1 hd]
    | some d =>
      cases he : sfs.isEmpty with
      | true => rw [c1.2.1 d hd he, c2.2.1 d hd he]
      | false =>
        cases hb : FaceDetectionService.bestMatchLoop d sfs none with
        | none => rw [c1.2.2.1 d hd he hb, c2.2.2.1 d hd he hb]
        | some p =>
          obtain ⟨bf, bd⟩ := p
          rw [c1.2.2.2 d bf bd hd he hb, c2.2.2.2 d bf bd hd he hb]
  · refine ⟨probeFace, [storedZero],
      { recentlyRecognizedFaces := [], emitted := [] }, 0, ?_⟩
    norm_num [FaceDetectionService.compareFaces,
      FaceDetectionService.bestMatchLoop, FaceDetectionService.acceptCheck,
      probeFace, storedZero, FaceDetectionService.calculateFaceDistance,
      sumSqDiff, Dist.lt, Dist.ltConst,
      FaceDetectionService.RECOGNITION_THRESHOLD,
      FaceDetectionService.wasRecentlyRecognized,
      FaceDetectionService.markFaceAsRecognized,
      FaceDetectionService.cleanupRecentlyRecognizedFaces, mapGet, mapSet,
      FaceDetectionService.RECOGNITION_MEMORY]
    decide

/-- C4: the notify-flag is tri-state — when the matched stored face has
an explicit `false` flag the whole notification path is skipped and the
state is untouched, while a flag of `true` or unset permits the path,
which (when the id is truthy and the face is not in the short-memory
window) appends exactly one recognition event for that face id. -/
theorem C4_notify_flag_tristate :
    ∀ (df : DetectedFace) (sfs : List DetectedFace)
      (st : FaceDetectionService.DetState) (now : ℕ) (rf : DetectedFace),
      (FaceDetectionService.compareFaces df sfs st now).1 = some rf →
      (rf.notifyOnRecognition = some false →
        (FaceDetectionService.compareFaces df sfs st now).2 = st) ∧
      (∀ fid, rf.notifyOnRecognition ≠ some false →
        rf.matchedFaceId = some fid → fid ≠ "" →
        (FaceDetectionService.wasRecentlyRecognized
           st.recentlyRecognizedFaces fid now).1 = false →
        (FaceDetectionService.compareFaces df sfs st now).2.emitted =
          st.emitted ++ [fid]) := by
  intro df sfs st now rf hres
  have c := compareFaces_cases df sfs st now
  cases hd : df.descriptor with
  | none => rw [c.1 hd] at hres; cases hres
  | some d =>
    cases he : sfs.isEmpty with
    | true => rw [c.2.1 d hd he] at hres; cases hres
    | false =>
      cases hb : FaceDetectionService.bestMatchLoop d sfs none with
      | none => rw [c.2.2.1 d hd he hb] at hres; cases hres
      | some p =>
        obtain ⟨bf, bd⟩ := p
        have hchar := c.2.2.2 d bf bd hd he hb
        rw [hchar] at hres
        have hrf : rf = { df with
            isRecognized := true
            matchedFaceId := some bf.id
            name := bf.name
            notes := bf.notes
            notifyOnRecognition := bf.notifyOnRecognition
            similarity := some bd } := by
          injection hres with h'
          exact h'.symm
        have hnotify : rf.notifyOnRecognition = bf.notifyOnRecognition := by
          rw [hrf]
        have hmid : rf.matchedFaceId = some bf.id := by
          rw [hrf]
        constructor
        · intro hfalse
          rw [hchar]
          rw [hnotify] at hfalse
          simp only [hfalse]
          simp
        · intro fid hne hfid htruthy hnotrecent
          rw [hmid] at hfid
          injection hfid with hfid'
          subst hfid'
          rw [hnotify] at hne
          rw [hchar]
          simp only []
          rw [if_pos ⟨hne, htruthy⟩]
          rcases hw : FaceDetectionService.wasRecentlyRecognized
            st.recentlyRecognizedFaces bf.id now with ⟨b, m'⟩
          rw [hw] at hnotrecent
          simp only at hnotrecent
          subst hnotrecent
          simp

/-- C4 witness: a match against a stored face with an explicit `false`
notify-flag leaves the state untouched, while the same match against a
face with the flag unset emits exactly one event for that face id. -/
theorem C4_notify_flag_tristate_witness :
    (FaceDetectionService.compareFaces probeFace [storedQuiet]
       { recentlyRecognizedFaces := [], emitted := [] } 0).2 =
      { recentlyRecognizedFaces := [], emitted := [] } ∧
    (FaceDetectionService.compareFaces probeFace [storedZero]
       { recentlyRecognizedFaces := [], emitted := [] } 0).2.emitted =
      ([] : List String) ++ ["f1"] := by
  constructor
  · refine (C4_notify_flag_tristate probeFace [storedQuiet]
      { recentlyRecognizedFaces := [], emitted := [] } 0
      { probeFace with
        isRecognized := true
        matchedFaceId := some "f4"
        name := some "Carl"
        notes := none
        notifyOnRecognition := some false
        similarity := some (.sqrtOf 0) } ?_).1 rfl
    norm_num [FaceDetectionService.compareFaces,
      FaceDetectionService.bestMatchLoop, FaceDetectionService.acceptCheck,
      probeFace, storedQuiet, FaceDetectionService.calculateFaceDistance,
      sumSqDiff, Dist.lt, Dist.ltConst,
      FaceDetectionService.RECOGNITION_THRESHOLD,
      FaceDetectionService.wasRecentlyRecognized,
      FaceDetectionService.markFaceAsRecognized,
      FaceDetectionService.cleanupRecentlyRecognizedFaces, mapGet, mapSet,
      FaceDetectionService.RECOGNITION_MEMORY]
  · refine (C4_notify_flag_tristate probeFace [storedZero]
      { recentlyRecognizedFaces := [], emitted := [] } 0
      { probeFace with
        isRecognized := true
        matchedFaceId := some "f1"
        name := some "Ann"
        notes := none
        notifyOnRecognition := none
        similarity := some (.sqrtOf 0) } ?_).2 "f1"
      (by decide) rfl (by decide) rfl
    norm_num [FaceDetectionService.compareFaces,
      FaceDetectionService.bestMatchLoop, FaceDetectionService.acceptCheck,
      probeFace, storedZero, FaceDetectionService.calculateFaceDistance,
      sumSqDiff, Dist.lt, Dist.ltConst,
      FaceDetectionService.RECOGNITION_THRESHOLD,
      FaceDetectionService.wasRecentlyRecognized,
      FaceDetectionService.markFaceAsRecognized,
      FaceDetectionService.cleanupRecentlyRecognizedFaces, mapGet, mapSet,
      FaceDetectionService.RECOGNITION_MEMORY]
    decide

/-- C1 counterexample: `findBestMatchingPerson` applies no acceptance
threshold — with a single candidate person whose only face is at
distance 0.9 from the query, every distance is above both the 0.5 live
threshold and the 0.55 storage threshold, yet the function returns that
person rather than "no match" (a null person). -/
theorem C1_matcher_counterexample :
    (PersonService.findBestMatchingPerson [0] [personFar]).1 =
      some personFar ∧
    ((PersonService.findBestMatchingPerson [0] [personFar]).2).ltConst
      PersonService.RECOGNITION_THRESHOLD = false ∧
    ((PersonService.findBestMatchingPerson [0] [personFar]).2).ltConst
      FaceDetectionService.RECOGNITION_THRESHOLD = false := by
  refine ⟨?_, ?_, ?_⟩ <;>
    norm_num [PersonService.findBestMatchingPerson, PersonService.personLoop,
      PersonService.faceLoop, personFar, storedFar,
      PersonService.calculateFaceDistance, sumSqDiff, Dist.lt, Dist.ltConst,
      PersonService.RECOGNITION_THRESHOLD,
      FaceDetectionService.RECOGNITION_THRESHOLD]

/-- C1 amended: `compareFaces` returns the stored face with globally
minimal distance among candidates with usable descriptors, and only
when that distance is below the 0.5 threshold; it returns `undefined`
on an empty list or when no distance is below the threshold.
`findBestMatchingPerson` returns the person owning the face of globally
minimal distance with no acceptance threshold — the 0.55 threshold is
applied separately by `shouldClusterWithPerson` — and a null person
exactly when no candidate face has a descriptor comparable to the query
(present and of equal length). -/
theorem C1_matcher_amended :
    (∀ (df : DetectedFace) (st : FaceDetectionService.DetState) (now : ℕ),
       (FaceDetectionService.compareFaces df [] st now).1 = none) ∧
    (∀ (df : DetectedFace) (sfs : List DetectedFace)
       (st : FaceDetectionService.DetState) (now : ℕ) (d : Descriptor),
       df.descriptor = some d →
       (∀ sf ∈ sfs, ∀ sd, sf.descriptor = some sd →
          (FaceDetectionService.calculateFaceDistance
             (some d) (some sd)).ltConst
            FaceDetectionService.RECOGNITION_THRESHOLD = false) →
       (FaceDetectionService.compareFaces df sfs st now).1 = none) ∧
    (∀ (df : DetectedFace) (sfs : List DetectedFace)
       (st : FaceDetectionService.DetState) (now : ℕ) (d : Descriptor)
       (rf : DetectedFace),
       df.descriptor = some d →
       (FaceDetectionService.compareFaces df sfs st now).1 = some rf →
       ∃ sf ∈ sfs, ∃ sd, sf.descriptor = some sd ∧
         rf.matchedFaceId = some sf.id ∧ rf.name = sf.name ∧
         (FaceDetectionService.calculateFaceDistance
            (some d) (some sd)).ltConst
           FaceDetectionService.RECOGNITION_THRESHOLD = true ∧
         ∀ sf' ∈ sfs, ∀ sd', sf'.descriptor = some sd' →
           (FaceDetectionService.calculateFaceDistance (some d) (some sd')).lt
             (FaceDetectionService.calculateFaceDistance (some d) (some sd)) =
             false) ∧
    (∀ (d : Descriptor) (persons : List PersonService.Person),
       ((PersonService.findBestMatchingPerson d persons).1 = none ↔
         ∀ p ∈ persons, ∀ f ∈ p.faces, ∀ fd, f.descriptor = some fd →
           PersonService.calculateFaceDistance (some d) (some fd) =
             .infinity)) ∧
    (∀ (d : Descriptor) (persons : List PersonService.Person)
       (p : PersonService.Person),
       (PersonService.findBestMatchingPerson d persons).1 = some p →
       p ∈ persons ∧
       ∃ f ∈ p.faces, ∃ fd, f.descriptor = some fd ∧
         (PersonService.findBestMatchingPerson d persons).2 =
           PersonService.calculateFaceDistance (some d) (some fd) ∧
         (PersonService.findBestMatchingPerson d persons).2 ≠ .infinity ∧
         ∀ p' ∈ persons, ∀ f' ∈ p'.faces, ∀ fd', f'.descriptor = some fd' →
           (PersonService.calculateFaceDistance (some d) (some fd')).lt
             (PersonService.findBestMatchingPerson d persons).2 = false) := by
  have hnone : ∀ f₀ d₀, (none : Option (DetectedFace × Dist)) =
      some (f₀, d₀) →
      d₀.ltConst FaceDetectionService.RECOGNITION_THRESHOLD = true := by
    intro f₀ d₀ h
    cases h
  refine ⟨?_, ?_, ?_, ?_, ?_⟩
  · intro df st now
    have c := compareFaces_cases df [] st now
    cases hd : df.descriptor with
    | none => rw [c.1 hd]
    | some d => rw [c.2.1 d hd rfl]
  · intro df sfs st now d hd hall
    have c := compareFaces_cases df sfs st now
    cases he : sfs.isEmpty with
    | true => rw [c.2.1 d hd he]
    | false =>
      cases hb : FaceDetectionService.bestMatchLoop d sfs none with
      | none => rw [c.2.2.1 d hd he hb]
      | some pr =>
        exfalso
        obtain ⟨bf, bd⟩ := pr
        obtain ⟨-, specB, -⟩ :=
          FaceDetectionService.bestMatchLoop_spec d sfs none hnone
        rcases specB with h | ⟨sf, hmem, sd, hdesc, heq, hθ⟩
        · rw [hb] at h; cases h
        · exact absurd hθ (by rw [hall sf hmem sd hdesc]; simp)
  · intro df sfs st now d rf hd hres
    have c := compareFaces_cases df sfs st now
    cases he : sfs.isEmpty with
    | true => rw [c.2.1 d hd he] at hres; cases hres
    | false =>
      cases hb : FaceDetectionService.bestMatchLoop d sfs none with
      | none => rw [c.2.2.1 d hd he hb] at hres; cases hres
      | some pr =>
        obtain ⟨bf, bd⟩ := pr
        rw [c.2.2.2 d bf bd hd he hb] at hres
        have hrf : rf = { df with
            isRecognized := true
            matchedFaceId := some bf.id
            name := bf.name
            notes := bf.notes
            notifyOnRecognition := bf.notifyOnRecognition
            similarity := some bd } := by
          injection hres with h'
          exact h'.symm
        obtain ⟨specA, specB, specD⟩ :=
          FaceDetectionService.bestMatchLoop_spec d sfs none hnone
        rcases specB with h | ⟨sf, hmem, sd, hdesc, heq, hθ⟩
        · rw [hb] at h; cases h
        · rw [hb] at heq
          obtain ⟨h1, h2⟩ : bf = sf ∧ bd =
              FaceDetectionService.calculateFaceDistance (some d) (some sd) := by
            injection heq with h'
            injection h' with ha hb'
            exact ⟨ha, hb'⟩
          subst h1
          refine ⟨bf, hmem, sd, hdesc, by rw [hrf], by rw [hrf], h2 ▸ hθ, ?_⟩
          intro sf' hmem' sd' hdesc'
          obtain ⟨-, specMin⟩ := specD bf bd hb
          have hm := specMin sf' hmem' sd' hdesc'
          rw [Dist.lt_eq_false_iff]
          exact not_lt.mp (h2 ▸ hm)
  · intro d persons
    obtain ⟨specP, specLe, specMin⟩ :=
      PersonService.personLoop_spec d persons (none, .infinity)
    constructor
    · intro hn p hp f hf fd hfd
      have hr2 : (PersonService.findBestMatchingPerson d persons).2.toW = ⊤ := by
        rcases specP with h | ⟨p0, hp0, f0, hf0, fd0, hfd0, heq, hlt⟩
        · rw [PersonService.findBestMatchingPerson, h]
          rfl
        · exfalso
          rw [PersonService.findBestMatchingPerson] at hn
          rw [heq] at hn
          cases hn
      have := specMin p hp f hf fd hfd
      rw [show PersonService.personLoop d persons (none, Dist.infinity) =
        PersonService.findBestMatchingPerson d persons from rfl, hr2] at this
      have htop : (PersonService.calculateFaceDistance
          (some d) (some fd)).toW = ⊤ := by
        by_contra hne
        exact this (lt_top_iff_ne_top.mpr hne)
      exact (Dist.toW_eq_top_iff _).mp htop
    · intro hall
      rcases specP with h | ⟨p0, hp0, f0, hf0, fd0, hfd0, heq, hlt⟩
      · rw [PersonService.findBestMatchingPerson, h]
      · exfalso
        have hinf := hall p0 hp0 f0 hf0 fd0 hfd0
        rw [hinf] at hlt
        exact lt_irrefl _ hlt
  · intro d persons p hsome
    obtain ⟨specP, specLe, specMin⟩ :=
      PersonService.personLoop_spec d persons (none, .infinity)
    rcases specP with h | ⟨p0, hp0, f0, hf0, fd0, hfd0, heq, hlt⟩
    · exfalso
      rw [PersonService.findBestMatchingPerson, h] at hsome
      cases hsome
    · have hr : PersonService.findBestMatchingPerson d persons =
          (some p0, PersonService.calculateFaceDistance (some d) (some fd0)) := by
        rw [PersonService.findBestMatchingPerson, heq]
      have hp0p : p0 = p := by
        rw [hr] at hsome
        exact Option.some.inj hsome
      subst hp0p
      refine ⟨hp0, f0, hf0, fd0, hfd0, by rw [hr], ?_, ?_⟩
      · rw [hr]
        intro hinf
        have hinf' : PersonService.calculateFaceDistance (some d) (some fd0) =
            Dist.infinity := hinf
        rw [hinf'] at hlt
        exact lt_irrefl _ hlt
      · intro p' hp' f' hf' fd' hfd'
        have hm := specMin p' hp' f' hf' fd' hfd'
        rw [Dist.lt_eq_false_iff]
        exact not_lt.mp hm

/-- C1 witness: the probe face at distance 0.9 from the only stored
face is below no threshold, so `compareFaces` reports no match. -/
theorem C1_matcher_amended_witness :
    (FaceDetectionService.compareFaces probeFace [storedFar]
       { recentlyRecognizedFaces := [], emitted := [] } 0).1 = none := by
  refine C1_matcher_amended.2.1 probeFace [storedFar]
    { recentlyRecognizedFaces := [], emitted := [] } 0 [0] rfl ?_
  intro sf hmem sd hd
  rw [List.mem_singleton] at hmem
  subst hmem
  have hsd : sd = [(9 : ℚ) / 10] := by
    rw [show storedFar.descriptor = some [(9 : ℚ) / 10] from rfl] at hd
    injection hd with h'
    exact h'.symm
  subst hsd
  norm_num [FaceDetectionService.calculateFaceDistance, sumSqDiff,
    Dist.ltConst, FaceDetectionService.RECOGNITION_THRESHOLD]

end FaceRec
